import Mathlib

/-!
Verification of the unicornafl Rust binding layer (bindings/rust/src).

The definitions below are a shallow embedding of the binding code:
pure interval arithmetic is translated directly, stateful sequences of
native-engine calls are modelled by explicit state passing plus an event
trace recording the native calls in program order, and each call into the
native engine is parametrised by the error code the native engine returns
(the native engine itself is an external dependency, so its result is an
oracle input). Machine integers (u64, usize) are modelled as Nat with
explicit reduction modulo 2^64 where the source can wrap.
-/

namespace Unicornafl

/-- Modulus of the 64-bit machine integers (u64 / usize) used by the binding. -/
def U64MOD : Nat := 2 ^ 64

/-- Modelled from the spec: the shared error-code vocabulary (consts.rs is not
among the provided sources). One named failure kind per reason listed in the
spec, plus the distinguished success value OK. -/
inductive uc_error where
  | OK
  | NOMEM
  | ARCH
  | HANDLE
  | MODE
  | VERSION
  | READ_UNMAPPED
  | WRITE_UNMAPPED
  | FETCH_UNMAPPED
  | HOOK
  | INSN_INVALID
  | MAP
  | WRITE_PROT
  | READ_PROT
  | FETCH_PROT
  | ARG
  | READ_UNALIGNED
  | WRITE_UNALIGNED
  | FETCH_UNALIGNED
  | HOOK_EXIST
  | RESOURCE
  | EXCEPTION
  deriving DecidableEq, Repr

/-- Modelled from the spec: the architecture tag (consts.rs is not among the
provided sources): one value per supported CPU family plus the sentinel
upper-bound value MAX used only as an invalid/uninitialized marker. -/
inductive Arch where
  | ARM
  | ARM64
  | MIPS
  | X86
  | PPC
  | SPARC
  | M68K
  | RISCV
  | MAX
  deriving DecidableEq, Repr

/-- One MMIO callback scope (MmioCallbackScope in lib.rs): the list of
(base, size) sub-regions currently covered, plus the optional read and write
closures, modelled as opaque identifiers. -/
structure MmioCallbackScope where
  regions : List (Nat × Nat)
  read_callback : Option Nat
  write_callback : Option Nat
  deriving DecidableEq, Repr

/-- MmioCallbackScope::has_regions: the region list is non-empty. -/
def MmioCallbackScope.has_regions (sc : MmioCallbackScope) : Bool :=
  sc.regions.length > 0

/-- The body of the flat_map in MmioCallbackScope::unmap: the fragments of one
region (b, s) that survive unmapping the range from the address in the first
argument up to the (already wrapped) end address in the second argument. -/
def unmapFragments (uBegin uEnd : Nat) (r : Nat × Nat) : List (Nat × Nat) :=
  let b := r.1
  let s := r.2
  let e := (b + s) % U64MOD
  if uBegin > b then
    if uBegin ≥ e then
      []
    else if uEnd ≥ e then
      [(b, uBegin - b)]
    else
      [(b, uBegin - b), (uEnd + 1, e - (uEnd + 1))]
  else if uEnd > b then
    if uEnd ≥ e then
      []
    else
      [(uEnd, e - uEnd)]
  else
    [(b, s)]

/-- MmioCallbackScope::unmap: the end address is begin + size in u64
arithmetic, and every region of the scope is replaced by the fragments of it
that survive the unmapped range. -/
def MmioCallbackScope.unmap (sc : MmioCallbackScope) (uBegin size : Nat) :
    MmioCallbackScope :=
  let uEnd := (uBegin + size) % U64MOD
  { sc with regions := sc.regions.flatMap (unmapFragments uBegin uEnd) }

/-- Modelled from the spec: the interrupt-hook bit of the HookType bit-flag
set (consts.rs is not among the provided sources). -/
def HookType.INTR : Nat := 1

/-- Modelled from the spec: the instruction-hook bit of HookType. -/
def HookType.INSN : Nat := 2

/-- Modelled from the spec: the code-hook bit of HookType. -/
def HookType.CODE : Nat := 4

/-- Modelled from the spec: the basic-block-hook bit of HookType. -/
def HookType.BLOCK : Nat := 8

/-- Modelled from the spec: the unmapped-read memory-event bit of HookType. -/
def HookType.MEM_READ_UNMAPPED : Nat := 16

/-- Modelled from the spec: the unmapped-write memory-event bit of HookType. -/
def HookType.MEM_WRITE_UNMAPPED : Nat := 32

/-- Modelled from the spec: the unmapped-fetch memory-event bit of HookType. -/
def HookType.MEM_FETCH_UNMAPPED : Nat := 64

/-- Modelled from the spec: the protection-violation-read bit of HookType. -/
def HookType.MEM_READ_PROT : Nat := 128

/-- Modelled from the spec: the protection-violation-write bit of HookType. -/
def HookType.MEM_WRITE_PROT : Nat := 256

/-- Modelled from the spec: the protection-violation-fetch bit of HookType. -/
def HookType.MEM_FETCH_PROT : Nat := 512

/-- Modelled from the spec: the valid-read memory-event bit of HookType. -/
def HookType.MEM_READ : Nat := 1024

/-- Modelled from the spec: the valid-write memory-event bit of HookType. -/
def HookType.MEM_WRITE : Nat := 2048

/-- Modelled from the spec: the valid-fetch memory-event bit of HookType. -/
def HookType.MEM_FETCH : Nat := 4096

/-- Modelled from the spec: the standalone read-after memory-event bit of
HookType, observed after the read completes. -/
def HookType.MEM_READ_AFTER : Nat := 8192

/-- Modelled from the spec: the aggregate all-memory-events combination of
HookType: the bitwise-or of the nine memory-event bits (unmapped
read/write/fetch, protection-violation read/write/fetch, valid
read/write/fetch). -/
def HookType.MEM_ALL : Nat :=
  HookType.MEM_READ_UNMAPPED ||| HookType.MEM_WRITE_UNMAPPED |||
  HookType.MEM_FETCH_UNMAPPED ||| HookType.MEM_READ_PROT |||
  HookType.MEM_WRITE_PROT ||| HookType.MEM_FETCH_PROT |||
  HookType.MEM_READ ||| HookType.MEM_WRITE ||| HookType.MEM_FETCH

/-- The contains test of the bitflags crate used on HookType values:
a.contains(b) holds exactly when every set bit of b is also set in a. -/
def HookType.contains (a b : Nat) : Bool :=
  a &&& b == b

/-- Equality of fallible results is decidable when both components are. -/
instance {α β : Type} [DecidableEq α] [DecidableEq β] :
    DecidableEq (Except α β)
  | .error a, .error b =>
    if h : a = b then .isTrue (by rw [h])
    else .isFalse (by intro hc; cases hc; exact h rfl)
  | .error _, .ok _ => .isFalse (by intro hc; cases hc)
  | .ok _, .error _ => .isFalse (by intro hc; cases hc)
  | .ok a, .ok b =>
    if h : a = b then .isTrue (by rw [h])
    else .isFalse (by intro hc; cases hc; exact h rfl)

/-- Result of a hook-registration operation: the returned token or error,
plus whether the native uc_hook_add entry point was actually invoked. -/
structure AddHookOut where
  result : Except uc_error Nat
  native_called : Bool
  deriving DecidableEq, Repr

/-- Unicorn::add_mem_hook from lib.rs: the hook-type value must be contained
in MEM_ALL combined with MEM_READ_AFTER, otherwise the operation returns ARG
before the native engine is consulted; otherwise uc_hook_add is invoked and
its result propagated (the fresh token on success, the error verbatim
otherwise). -/
def add_mem_hook (hook_type : Nat) (native : uc_error) (token : Nat) :
    AddHookOut :=
  if !HookType.contains (HookType.MEM_ALL ||| HookType.MEM_READ_AFTER)
      hook_type then
    { result := .error uc_error.ARG, native_called := false }
  else if native = uc_error.OK then
    { result := .ok token, native_called := true }
  else
    { result := .error native, native_called := true }

/-- Modelled from the spec: the X86 instruction-pointer register id (x86.rs is
not among the provided sources; the numeric value is a placeholder standing
for the native engine's id, only its distinctness matters here). -/
def x86.Register.RIP : Int := 41

/-- Modelled from the spec: first id of the 32-wide X86 XMM register bank
(x86.rs is not among the provided sources; the 32-wide contiguous blocks
follow the spec's catalog description). -/
def x86.Register.XMM0 : Int := 200

/-- Modelled from the spec: last id of the X86 XMM bank. -/
def x86.Register.XMM31 : Int := x86.Register.XMM0 + 31

/-- Modelled from the spec: first id of the 32-wide X86 YMM register bank. -/
def x86.Register.YMM0 : Int := 232

/-- Modelled from the spec: last id of the X86 YMM bank. -/
def x86.Register.YMM31 : Int := x86.Register.YMM0 + 31

/-- Modelled from the spec: first id of the 32-wide X86 ZMM register bank. -/
def x86.Register.ZMM0 : Int := 264

/-- Modelled from the spec: last id of the X86 ZMM bank. -/
def x86.Register.ZMM31 : Int := x86.Register.ZMM0 + 31

/-- Modelled from the spec: the X86 global-descriptor-table register id. -/
def x86.Register.GDTR : Int := 192

/-- Modelled from the spec: the X86 interrupt-descriptor-table register id. -/
def x86.Register.IDTR : Int := 193

/-- Modelled from the spec: first id of the 8-wide X86 x87 ST register
bank. -/
def x86.Register.ST0 : Int := 180

/-- Modelled from the spec: last id of the X86 x87 ST bank. -/
def x86.Register.ST7 : Int := x86.Register.ST0 + 7

/-- Modelled from the spec: first id of the 32-wide ARM64 Q register bank
(arm64.rs is not among the provided sources). -/
def arm64.Register.Q0 : Int := 128

/-- Modelled from the spec: last id of the ARM64 Q bank. -/
def arm64.Register.Q31 : Int := arm64.Register.Q0 + 31

/-- Modelled from the spec: first id of the 32-wide ARM64 V register bank. -/
def arm64.Register.V0 : Int := 160

/-- Modelled from the spec: last id of the ARM64 V bank. -/
def arm64.Register.V31 : Int := arm64.Register.V0 + 31

/-- Modelled from the spec: the ARM64 program-counter register id. -/
def arm64.Register.PC : Int := 260

/-- Modelled from the spec: the ARM program-counter register id (arm.rs is
not among the provided sources). -/
def arm.Register.PC : Int := 11

/-- Modelled from the spec: the SPARC program-counter register id (sparc.rs
is not among the provided sources). -/
def sparc.Register.PC : Int := 87

/-- Modelled from the spec: the PPC program-counter register id (ppc.rs is
not among the provided sources). -/
def ppc.Register.PC : Int := 1

/-- Result of the wide-register read: the length in bytes of the returned
buffer or the error, plus whether the native uc_reg_read entry point was
actually invoked. -/
structure RegReadLongOut where
  result : Except uc_error Nat
  native_called : Bool
  deriving DecidableEq, Repr

/-- Unicorn::reg_read_long from lib.rs, first phase (the buffer-sizing
if-chain initializing the output ArrayVec): the output width in bytes is
chosen from the architecture and register-id range (16 for XMM, 32 for YMM,
64 for ZMM, 10 for GDTR/IDTR/ST on X86; 16 for Q or V on ARM64); an id
outside the table yields ARG, any other architecture yields ARCH. -/
def reg_read_long_size (arch : Arch) (regid : Int) : Except uc_error Nat :=
  if arch = Arch.X86 then
      if x86.Register.XMM0 ≤ regid ∧ regid ≤ x86.Register.XMM31 then
        .ok 16
      else if x86.Register.YMM0 ≤ regid ∧ regid ≤ x86.Register.YMM31 then
        .ok 32
      else if x86.Register.ZMM0 ≤ regid ∧ regid ≤ x86.Register.ZMM31 then
        .ok 64
      else if regid = x86.Register.GDTR ∨ regid = x86.Register.IDTR ∨
          (x86.Register.ST0 ≤ regid ∧ regid ≤ x86.Register.ST7) then
        .ok 10
      else
        .error uc_error.ARG
    else if arch = Arch.ARM64 then
      if (arm64.Register.Q0 ≤ regid ∧ regid ≤ arm64.Register.Q31) ∨
          (arm64.Register.V0 ≤ regid ∧ regid ≤ arm64.Register.V31) then
        .ok 16
      else
        .error uc_error.ARG
    else
      .error uc_error.ARCH

/-- Unicorn::reg_read_long from lib.rs, second phase: when the size table
produced a buffer the native uc_reg_read fills it (its error propagated
verbatim); when it produced an error the operation returns it without
consulting the native engine. -/
def reg_read_long (arch : Arch) (regid : Int) (native : uc_error) :
    RegReadLongOut :=
  match reg_read_long_size arch regid with
  | .error e => { result := .error e, native_called := false }
  | .ok len =>
    if native = uc_error.OK then
      { result := .ok len, native_called := true }
    else
      { result := .error native, native_called := true }

/-- The MIPS register catalog of mips.rs: one numeric id per named
register, values taken verbatim from the source enum. -/
def mips.Register.INVALID : Int := 0

def mips.Register.PC : Int := 1

def mips.Register.GPR0 : Int := 2

def mips.Register.GPR1 : Int := 3

def mips.Register.GPR2 : Int := 4

def mips.Register.GPR3 : Int := 5

def mips.Register.GPR4 : Int := 6

def mips.Register.GPR5 : Int := 7

def mips.Register.GPR6 : Int := 8

def mips.Register.GPR7 : Int := 9

def mips.Register.GPR8 : Int := 10

def mips.Register.GPR9 : Int := 11

def mips.Register.GPR10 : Int := 12

def mips.Register.GPR11 : Int := 13

def mips.Register.GPR12 : Int := 14

def mips.Register.GPR13 : Int := 15

def mips.Register.GPR14 : Int := 16

def mips.Register.GPR15 : Int := 17

def mips.Register.GPR16 : Int := 18

def mips.Register.GPR17 : Int := 19

def mips.Register.GPR18 : Int := 20

def mips.Register.GPR19 : Int := 21

def mips.Register.GPR20 : Int := 22

def mips.Register.GPR21 : Int := 23

def mips.Register.GPR22 : Int := 24

def mips.Register.GPR23 : Int := 25

def mips.Register.GPR24 : Int := 26

def mips.Register.GPR25 : Int := 27

def mips.Register.GPR26 : Int := 28

def mips.Register.GPR27 : Int := 29

def mips.Register.GPR28 : Int := 30

def mips.Register.GPR29 : Int := 31

def mips.Register.GPR30 : Int := 32

def mips.Register.GPR31 : Int := 33

def mips.Register.DSPCCOND : Int := 34

def mips.Register.DSPCARRY : Int := 35

def mips.Register.DSPEFI : Int := 36

def mips.Register.DSPOUTFLAG : Int := 37

def mips.Register.DSPOUTFLAG16_19 : Int := 38

def mips.Register.DSPOUTFLAG20 : Int := 39

def mips.Register.DSPOUTFLAG21 : Int := 40

def mips.Register.DSPOUTFLAG22 : Int := 41

def mips.Register.DSPOUTFLAG23 : Int := 42

def mips.Register.DSPPOS : Int := 43

def mips.Register.DSPSCOUNT : Int := 44

def mips.Register.AC0 : Int := 45

def mips.Register.AC1 : Int := 46

def mips.Register.AC2 : Int := 47

def mips.Register.AC3 : Int := 48

def mips.Register.CC0 : Int := 49

def mips.Register.CC1 : Int := 50

def mips.Register.CC2 : Int := 51

def mips.Register.CC3 : Int := 52

def mips.Register.CC4 : Int := 53

def mips.Register.CC5 : Int := 54

def mips.Register.CC6 : Int := 55

def mips.Register.CC7 : Int := 56

def mips.Register.F0 : Int := 57

def mips.Register.F1 : Int := 58

def mips.Register.F2 : Int := 59

def mips.Register.F3 : Int := 60

def mips.Register.F4 : Int := 61

def mips.Register.F5 : Int := 62

def mips.Register.F6 : Int := 63

def mips.Register.F7 : Int := 64

def mips.Register.F8 : Int := 65

def mips.Register.F9 : Int := 66

def mips.Register.F10 : Int := 67

def mips.Register.F11 : Int := 68

def mips.Register.F12 : Int := 69

def mips.Register.F13 : Int := 70

def mips.Register.F14 : Int := 71

def mips.Register.F15 : Int := 72

def mips.Register.F16 : Int := 73

def mips.Register.F17 : Int := 74

def mips.Register.F18 : Int := 75

def mips.Register.F19 : Int := 76

def mips.Register.F20 : Int := 77

def mips.Register.F21 : Int := 78

def mips.Register.F22 : Int := 79

def mips.Register.F23 : Int := 80

def mips.Register.F24 : Int := 81

def mips.Register.F25 : Int := 82

def mips.Register.F26 : Int := 83

def mips.Register.F27 : Int := 84

def mips.Register.F28 : Int := 85

def mips.Register.F29 : Int := 86

def mips.Register.F30 : Int := 87

def mips.Register.F31 : Int := 88

def mips.Register.FCC0 : Int := 89

def mips.Register.FCC1 : Int := 90

def mips.Register.FCC2 : Int := 91

def mips.Register.FCC3 : Int := 92

def mips.Register.FCC4 : Int := 93

def mips.Register.FCC5 : Int := 94

def mips.Register.FCC6 : Int := 95

def mips.Register.FCC7 : Int := 96

def mips.Register.W0 : Int := 97

def mips.Register.W1 : Int := 98

def mips.Register.W2 : Int := 99

def mips.Register.W3 : Int := 100

def mips.Register.W4 : Int := 101

def mips.Register.W5 : Int := 102

def mips.Register.W6 : Int := 103

def mips.Register.W7 : Int := 104

def mips.Register.W8 : Int := 105

def mips.Register.W9 : Int := 106

def mips.Register.W10 : Int := 107

def mips.Register.W11 : Int := 108

def mips.Register.W12 : Int := 109

def mips.Register.W13 : Int := 110

def mips.Register.W14 : Int := 111

def mips.Register.W15 : Int := 112

def mips.Register.W16 : Int := 113

def mips.Register.W17 : Int := 114

def mips.Register.W18 : Int := 115

def mips.Register.W19 : Int := 116

def mips.Register.W20 : Int := 117

def mips.Register.W21 : Int := 118

def mips.Register.W22 : Int := 119

def mips.Register.W23 : Int := 120

def mips.Register.W24 : Int := 121

def mips.Register.W25 : Int := 122

def mips.Register.W26 : Int := 123

def mips.Register.W27 : Int := 124

def mips.Register.W28 : Int := 125

def mips.Register.W29 : Int := 126

def mips.Register.W30 : Int := 127

def mips.Register.W31 : Int := 128

def mips.Register.HI : Int := 129

def mips.Register.LO : Int := 130

def mips.Register.P0 : Int := 131

def mips.Register.P1 : Int := 132

def mips.Register.P2 : Int := 133

def mips.Register.MPL0 : Int := 134

def mips.Register.MPL1 : Int := 135

def mips.Register.MPL2 : Int := 136

def mips.Register.CP0_CONFIG3 : Int := 137

def mips.Register.CP0_USERLOCAL : Int := 138

def mips.Register.CP0_STATUS : Int := 139

def mips.Register.ENDING : Int := 140

/-- The MIPS alias constants of mips.rs: each conventional name is
defined as equal to its canonical register, never as a distinct
value. -/
def mips.Register.ZERO : Int := mips.Register.GPR0

def mips.Register.AT : Int := mips.Register.GPR1

def mips.Register.V0 : Int := mips.Register.GPR2

def mips.Register.V1 : Int := mips.Register.GPR3

def mips.Register.A0 : Int := mips.Register.GPR4

def mips.Register.A1 : Int := mips.Register.GPR5

def mips.Register.A2 : Int := mips.Register.GPR6

def mips.Register.A3 : Int := mips.Register.GPR7

def mips.Register.T0 : Int := mips.Register.GPR8

def mips.Register.T1 : Int := mips.Register.GPR9

def mips.Register.T2 : Int := mips.Register.GPR10

def mips.Register.T3 : Int := mips.Register.GPR11

def mips.Register.T4 : Int := mips.Register.GPR12

def mips.Register.T5 : Int := mips.Register.GPR13

def mips.Register.T6 : Int := mips.Register.GPR14

def mips.Register.T7 : Int := mips.Register.GPR15

def mips.Register.S0 : Int := mips.Register.GPR16

def mips.Register.S1 : Int := mips.Register.GPR17

def mips.Register.S2 : Int := mips.Register.GPR18

def mips.Register.S3 : Int := mips.Register.GPR19

def mips.Register.S4 : Int := mips.Register.GPR20

def mips.Register.S5 : Int := mips.Register.GPR21

def mips.Register.S6 : Int := mips.Register.GPR22

def mips.Register.S7 : Int := mips.Register.GPR23

def mips.Register.T8 : Int := mips.Register.GPR24

def mips.Register.T9 : Int := mips.Register.GPR25

def mips.Register.K0 : Int := mips.Register.GPR26

def mips.Register.K1 : Int := mips.Register.GPR27

def mips.Register.GP : Int := mips.Register.GPR28

def mips.Register.SP : Int := mips.Register.GPR29

def mips.Register.FP : Int := mips.Register.GPR30

def mips.Register.S8 : Int := mips.Register.GPR30

def mips.Register.RA : Int := mips.Register.GPR31

def mips.Register.HI0 : Int := mips.Register.AC0

def mips.Register.HI1 : Int := mips.Register.AC1

def mips.Register.HI2 : Int := mips.Register.AC2

def mips.Register.HI3 : Int := mips.Register.AC3

def mips.Register.LO0 : Int := mips.Register.AC0

def mips.Register.LO1 : Int := mips.Register.AC1

def mips.Register.LO2 : Int := mips.Register.AC2

def mips.Register.LO3 : Int := mips.Register.AC3


/-- The M68K program-counter register id from m68k.rs (implicit enum
discriminants: INVALID = 0, A0..A7 = 1..8, D0..D7 = 9..16, SR = 17,
PC = 18). -/
def m68k.Register.PC : Int := 18

/-- The RISC-V program-counter register id from riscv.rs. -/
def riscv.Register.PC : Int := 65

/-- Unicorn::reg_read from lib.rs: a fixed 64-bit register read; the value the
native engine deposited is returned on OK, the native error verbatim
otherwise. -/
def reg_read (regid : Int) (native : uc_error) (native_val : Nat) :
    Except uc_error Nat :=
  let _ := regid
  if native = uc_error.OK then .ok native_val else .error native

/-- Unicorn::reg_write from lib.rs: a fixed 64-bit register write; unit on OK,
the native error verbatim otherwise. -/
def reg_write (regid : Int) (value : Nat) (native : uc_error) :
    Except uc_error Unit :=
  let _ := (regid, value)
  if native = uc_error.OK then .ok () else .error native

/-- Unicorn::pc_read from lib.rs: the architecture's canonical
program-counter register id is resolved and the 64-bit register read is
delegated to; the Arch::MAX arm of the source match is a panic, modelled as
none (no value, normal or error, is ever returned). -/
def pc_read (arch : Arch) (native : uc_error) (native_val : Nat) :
    Option (Except uc_error Nat) :=
  match arch with
  | Arch.X86 => some (reg_read x86.Register.RIP native native_val)
  | Arch.ARM => some (reg_read arm.Register.PC native native_val)
  | Arch.ARM64 => some (reg_read arm64.Register.PC native native_val)
  | Arch.MIPS => some (reg_read mips.Register.PC native native_val)
  | Arch.SPARC => some (reg_read sparc.Register.PC native native_val)
  | Arch.M68K => some (reg_read m68k.Register.PC native native_val)
  | Arch.PPC => some (reg_read ppc.Register.PC native native_val)
  | Arch.RISCV => some (reg_read riscv.Register.PC native native_val)
  | Arch.MAX => none

/-- Unicorn::pc_write from lib.rs: the same canonical-register resolution as
pc_read, delegating to the 64-bit register write; the Arch::MAX arm is a
panic, modelled as none. -/
def pc_write (arch : Arch) (value : Nat) (native : uc_error) :
    Option (Except uc_error Unit) :=
  match arch with
  | Arch.X86 => some (reg_write x86.Register.RIP value native)
  | Arch.ARM => some (reg_write arm.Register.PC value native)
  | Arch.ARM64 => some (reg_write arm64.Register.PC value native)
  | Arch.MIPS => some (reg_write mips.Register.PC value native)
  | Arch.SPARC => some (reg_write sparc.Register.PC value native)
  | Arch.M68K => some (reg_write m68k.Register.PC value native)
  | Arch.PPC => some (reg_write ppc.Register.PC value native)
  | Arch.RISCV => some (reg_write riscv.Register.PC value native)
  | Arch.MAX => none

/-- Unicorn::mem_write from lib.rs: unit on OK, the native uc_mem_write error
verbatim otherwise. -/
def mem_write (native : uc_error) : Except uc_error Unit :=
  if native = uc_error.OK then .ok () else .error native

/-- Unicorn::mem_read from lib.rs: unit on OK (the caller's buffer was
filled), the native uc_mem_read error verbatim otherwise. -/
def mem_read (native : uc_error) : Except uc_error Unit :=
  if native = uc_error.OK then .ok () else .error native

/-- Unicorn::mem_map from lib.rs: unit on OK, the native uc_mem_map error
verbatim otherwise (no alignment check is performed by the binding itself). -/
def mem_map (native : uc_error) : Except uc_error Unit :=
  if native = uc_error.OK then .ok () else .error native

/-- Unicorn::mem_protect from lib.rs: unit on OK, the native uc_mem_protect
error verbatim otherwise. -/
def mem_protect (native : uc_error) : Except uc_error Unit :=
  if native = uc_error.OK then .ok () else .error native

/-- Unicorn::context_alloc from lib.rs: a Context holding the fresh native
allocation on OK (is_initialized, modelled as true), the native error
verbatim otherwise. -/
def context_alloc (native : uc_error) : Except uc_error Bool :=
  if native = uc_error.OK then .ok true else .error native

/-- Unicorn::context_save from lib.rs: unit on OK, the native uc_context_save
error verbatim otherwise. -/
def context_save (native : uc_error) : Except uc_error Unit :=
  if native = uc_error.OK then .ok () else .error native

/-- Unicorn::context_restore from lib.rs: unit on OK, the native
uc_context_restore error verbatim otherwise. -/
def context_restore (native : uc_error) : Except uc_error Unit :=
  if native = uc_error.OK then .ok () else .error native

/-- Unicorn::emu_start from lib.rs: unit on OK, the native uc_emu_start error
verbatim otherwise. -/
def emu_start (native : uc_error) : Except uc_error Unit :=
  if native = uc_error.OK then .ok () else .error native

/-- Unicorn::emu_stop from lib.rs: unit on OK, the native uc_emu_stop error
verbatim otherwise. -/
def emu_stop (native : uc_error) : Except uc_error Unit :=
  if native = uc_error.OK then .ok () else .error native

/-- Unicorn::query from lib.rs: the value the native engine deposited on OK,
the native uc_query error verbatim otherwise. -/
def query (native : uc_error) (native_val : Nat) : Except uc_error Nat :=
  if native = uc_error.OK then .ok native_val else .error native

/-- Unicorn::add_code_hook from lib.rs (the pattern shared by every
non-memory hook registration): uc_hook_add is always invoked; on OK the
(token, closure) pair is pushed onto the hook list and the token returned,
otherwise the native error is returned verbatim and the list is unchanged. -/
def add_code_hook (hooks : List (Nat × Nat)) (token closure : Nat)
    (native : uc_error) : List (Nat × Nat) × Except uc_error Nat :=
  if native = uc_error.OK then
    (hooks ++ [(token, closure)], .ok token)
  else
    (hooks, .error native)

/-- One native-engine call or host-side ownership action, recorded in program
order by the stateful operations modelled below. -/
inductive Event where
  | drop_entry (token : Nat)
  | uc_hook_del (token : Nat)
  | uc_context_alloc
  | uc_context_save
  | uc_context_free
  deriving DecidableEq, Repr

/-- Result of Unicorn::remove_hook: the hook list after the retain, the
returned result, and the trace of actions in program order. -/
structure RemoveHookOut where
  hooks : List (Nat × Nat)
  result : Except uc_error Unit
  trace : List Event
  deriving DecidableEq, Repr

/-- Unicorn::remove_hook from lib.rs: the hook list first retains only the
entries whose token differs from the argument (dropping the matching
closure), then uc_hook_del is invoked on the native engine and its result
returned. -/
def remove_hook (hooks : List (Nat × Nat)) (hook : Nat) (native : uc_error) :
    RemoveHookOut :=
  let hooks2 := hooks.filter (fun p => p.1 != hook)
  let trace1 := [Event.drop_entry hook]
  let trace2 := trace1 ++ [Event.uc_hook_del hook]
  { hooks := hooks2
    result := if native = uc_error.OK then .ok () else .error native
    trace := trace2 }

/-- Result of Unicorn::context_init: the returned populated Context or error,
and the trace of native context calls in program order. -/
structure CtxInitOut where
  result : Except uc_error Bool
  trace : List Event
  deriving DecidableEq, Repr

/-- Unicorn::context_init from lib.rs: uc_context_alloc first; a failure is
returned at once (no save attempted); then uc_context_save; on success the
populated context is returned, and on a save failure the fresh allocation is
released with uc_context_free before the save error is returned. -/
def context_init (alloc_res save_res : uc_error) : CtxInitOut :=
  if alloc_res ≠ uc_error.OK then
    { result := .error alloc_res, trace := [Event.uc_context_alloc] }
  else if save_res = uc_error.OK then
    { result := .ok true
      trace := [Event.uc_context_alloc, Event.uc_context_save] }
  else
    { result := .error save_res
      trace := [Event.uc_context_alloc, Event.uc_context_save,
                Event.uc_context_free] }

/-- The successful branch of Unicorn::mmio_map from lib.rs: a new scope
covering exactly the single region (address, size) with the given closures is
pushed onto the instance's MMIO-callback list. -/
def mmio_map_ok (scopes : List MmioCallbackScope) (address size : Nat)
    (rd wr : Option Nat) : List MmioCallbackScope :=
  scopes ++ [{ regions := [(address, size)], read_callback := rd,
               write_callback := wr }]

/-- Unicorn::mmio_unmap from lib.rs: every scope subtracts the unmapped range
from its region set, then only the scopes that still have regions are
retained (the others are dropped together with their closures). -/
def mmio_unmap (scopes : List MmioCallbackScope) (address size : Nat) :
    List MmioCallbackScope :=
  (scopes.map (fun sc => sc.unmap address size)).filter
    (fun sc => sc.has_regions)

/-- Result of Unicorn::mem_unmap: the MMIO-callback list after the operation
and the returned result. -/
structure MemUnmapOut where
  scopes : List MmioCallbackScope
  result : Except uc_error Unit
  deriving DecidableEq, Repr

/-- Unicorn::mem_unmap from lib.rs: uc_mem_unmap is invoked first and its
error saved; the MMIO bookkeeping (mmio_unmap) then runs unconditionally,
and only afterwards is the saved native result turned into the returned
value (unit on OK, the error verbatim otherwise). -/
def mem_unmap (scopes : List MmioCallbackScope) (address size : Nat)
    (native : uc_error) : MemUnmapOut :=
  let err := native
  let scopes2 := mmio_unmap scopes address size
  { scopes := scopes2
    result := if err = uc_error.OK then .ok () else .error err }

/-- The reachable states of the instance's MMIO-callback list: initially
empty (Unicorn::new), extended by a successful mmio_map, and rewritten by the
mmio_unmap pass that both mem_unmap and a failed native unmap run (every
other operation leaves the list untouched). -/
inductive ReachableScopes : List MmioCallbackScope → Prop where
  | init : ReachableScopes []
  | map_step (scopes : List MmioCallbackScope) (address size : Nat)
      (rd wr : Option Nat) : ReachableScopes scopes →
      ReachableScopes (mmio_map_ok scopes address size rd wr)
  | unmap_step (scopes : List MmioCallbackScope) (address size : Nat) :
      ReachableScopes scopes →
      ReachableScopes (mmio_unmap scopes address size)

end Unicornafl

namespace Unicornafl

/-- C1: the scope-unmap interval rule, case by case, exactly as the spec
states it, plus the worked example: a scope covering the 8 KiB range starting
at 0x1000 unmapped over the 2 KiB range starting at 0x1800 retains exactly
the fragments starting at 0x1000 (length 0x800) and 0x2001 (length 0xFFF). -/
theorem mmio_unmap_interval_cases
    (b s uBegin size e uEnd : Nat)
    (hb : b + s < U64MOD) (hsz : uBegin + size < U64MOD)
    (he : e = b + s) (hend : uEnd = uBegin + size) :
    (uBegin > b → uBegin < e → uEnd ≥ e →
      unmapFragments uBegin uEnd (b, s) = [(b, uBegin - b)])
    ∧ (uBegin > b → uBegin < e → uEnd < e →
      unmapFragments uBegin uEnd (b, s) =
        [(b, uBegin - b), (uEnd + 1, e - (uEnd + 1))])
    ∧ (uBegin ≤ b → uEnd > b → uEnd < e →
      unmapFragments uBegin uEnd (b, s) = [(uEnd, e - uEnd)])
    ∧ (uBegin ≤ b → uEnd ≤ b →
      unmapFragments uBegin uEnd (b, s) = [(b, s)])
    ∧ (uBegin > b → uBegin ≥ e →
      unmapFragments uBegin uEnd (b, s) = [])
    ∧ MmioCallbackScope.unmap ⟨[(0x1000, 0x2000)], none, none⟩ 0x1800 0x800
        = ⟨[(0x1000, 0x800), (0x2001, 0xFFF)], none, none⟩ := by
  subst he hend
  have hmod : (b + s) % U64MOD = b + s := Nat.mod_eq_of_lt hb
  refine ⟨?_, ?_, ?_, ?_, ?_, ?_⟩
  · intro h1 h2 h3
    simp only [unmapFragments, hmod]
    rw [if_pos h1, if_neg (by omega), if_pos h3]
  · intro h1 h2 h3
    simp only [unmapFragments, hmod]
    rw [if_pos h1, if_neg (by omega), if_neg (by omega)]
  · intro h1 h2 h3
    simp only [unmapFragments, hmod]
    rw [if_neg (by omega), if_pos h2, if_neg (by omega)]
  · intro h1 h2
    simp only [unmapFragments, hmod]
    rw [if_neg (by omega), if_neg (by omega)]
  · intro h1 h2
    simp only [unmapFragments, hmod]
    rw [if_pos h1, if_pos h2]
  · rfl

/-- Witness for C1: the middle-split case evaluated at the spec's own worked
example, with every hypothesis discharged concretely. -/
theorem mmio_unmap_interval_cases_witness :
    unmapFragments 0x1800 0x2000 (0x1000, 0x2000) =
      [(0x1000, 0x800), (0x2001, 0xFFF)] :=
  (mmio_unmap_interval_cases 0x1000 0x2000 0x1800 0x800 0x3000 0x2000
    (by decide) (by decide) (by decide) (by decide)).2.1
    (by decide) (by decide) (by decide)

/-- C2 counterexample: the hook-type value CODE combined with MEM_READ
intersects the all-memory-events aggregate, yet add_mem_hook rejects it with
ARG without consulting the native engine — the claim's intersection criterion
does not match the containment test the code performs. -/
theorem add_mem_hook_intersect_counterexample :
    (HookType.CODE ||| HookType.MEM_READ) &&&
        (HookType.MEM_ALL ||| HookType.MEM_READ_AFTER) ≠ 0
    ∧ add_mem_hook (HookType.CODE ||| HookType.MEM_READ) uc_error.OK 7 =
        { result := .error uc_error.ARG, native_called := false } := by
  decide

/-- C2 amended: registration proceeds to the native hook-add call exactly
when every set bit of the hook-type value lies within the all-memory-events
aggregate or the standalone read-after bit (the bitflags containment test);
any value with a set bit outside that combination is rejected with the
bad-argument error before the native engine is consulted. -/
theorem add_mem_hook_containment
    (ht token : Nat) (native : uc_error) :
    (HookType.contains (HookType.MEM_ALL ||| HookType.MEM_READ_AFTER) ht =
        true →
      (add_mem_hook ht native token).native_called = true
      ∧ (native = uc_error.OK →
          (add_mem_hook ht native token).result = .ok token)
      ∧ (native ≠ uc_error.OK →
          (add_mem_hook ht native token).result = .error native))
    ∧ (HookType.contains (HookType.MEM_ALL ||| HookType.MEM_READ_AFTER) ht =
        false →
      (add_mem_hook ht native token).native_called = false
      ∧ (add_mem_hook ht native token).result = .error uc_error.ARG) := by
  constructor
  · intro h
    simp only [add_mem_hook, h]
    by_cases hn : native = uc_error.OK <;> simp [hn]
  · intro h
    constructor <;> simp [add_mem_hook, h]

/-- Witness for C2's amended theorem: a pure memory-event value is passed to
the native engine and yields its token, while the code-hook value is
rejected with ARG before the native engine is consulted. -/
theorem add_mem_hook_containment_witness :
    (add_mem_hook HookType.MEM_READ uc_error.OK 5).native_called = true
    ∧ (add_mem_hook HookType.MEM_READ uc_error.OK 5).result = .ok 5
    ∧ (add_mem_hook HookType.CODE uc_error.OK 5).native_called = false
    ∧ (add_mem_hook HookType.CODE uc_error.OK 5).result =
        .error uc_error.ARG :=
  ⟨((add_mem_hook_containment HookType.MEM_READ 5 uc_error.OK).1
      (by decide)).1,
   ((add_mem_hook_containment HookType.MEM_READ 5 uc_error.OK).1
      (by decide)).2.1 rfl,
   ((add_mem_hook_containment HookType.CODE 5 uc_error.OK).2 (by decide)).1,
   ((add_mem_hook_containment HookType.CODE 5 uc_error.OK).2 (by decide)).2⟩

/-- C4: remove_hook leaves exactly the entries whose token differs from the
argument (dropping the matching closures), its trace drops the list entry
strictly before the native hook-delete call, removing a token that is not in
the list removes nothing, and the native delete's result is returned (unit
on OK, the error verbatim otherwise). -/
theorem remove_hook_spec (hooks : List (Nat × Nat)) (token : Nat)
    (e : uc_error) :
    (remove_hook hooks token e).hooks =
        hooks.filter (fun p => p.1 != token)
    ∧ (remove_hook hooks token e).trace =
        [Event.drop_entry token, Event.uc_hook_del token]
    ∧ (token ∉ hooks.map Prod.fst →
        (remove_hook hooks token e).hooks = hooks)
    ∧ (e = uc_error.OK → (remove_hook hooks token e).result = .ok ())
    ∧ (e ≠ uc_error.OK → (remove_hook hooks token e).result = .error e) := by
  refine ⟨rfl, rfl, ?_, ?_, ?_⟩
  · intro h
    simp only [remove_hook]
    rw [List.filter_eq_self]
    intro p hp
    have hmem : p.1 ∈ hooks.map Prod.fst := List.mem_map_of_mem _ hp
    simp only [bne_iff_ne, ne_eq, decide_not]
    intro hc
    exact h (hc ▸ hmem)
  · intro h; simp [remove_hook, h]
  · intro h; simp [remove_hook, h]

/-- Witness for C4: removing the token 2, absent from a one-entry hook list,
removes nothing, keeps the drop-before-delete trace order, and returns the
native delete error verbatim. -/
theorem remove_hook_spec_witness :
    (remove_hook [(1, 10)] 2 uc_error.HANDLE).hooks = [(1, 10)]
    ∧ (remove_hook [(1, 10)] 2 uc_error.HANDLE).trace =
        [Event.drop_entry 2, Event.uc_hook_del 2]
    ∧ (remove_hook [(1, 10)] 2 uc_error.HANDLE).result =
        .error uc_error.HANDLE :=
  ⟨(remove_hook_spec [(1, 10)] 2 uc_error.HANDLE).2.2.1 (by decide),
   (remove_hook_spec [(1, 10)] 2 uc_error.HANDLE).2.1,
   (remove_hook_spec [(1, 10)] 2 uc_error.HANDLE).2.2.2.2 (by decide)⟩

/-- C5: on the sentinel Arch.MAX both program-counter conveniences panic
(modelled as none: no value, normal or error, is returned), and on each of
the eight real architectures they resolve the canonical program-counter
register id and delegate to the 64-bit register read or write. -/
theorem pc_read_write_resolution (native : uc_error) (v : Nat) :
    pc_read Arch.MAX native v = none
    ∧ pc_write Arch.MAX v native = none
    ∧ pc_read Arch.X86 native v = some (reg_read x86.Register.RIP native v)
    ∧ pc_read Arch.ARM native v = some (reg_read arm.Register.PC native v)
    ∧ pc_read Arch.ARM64 native v =
        some (reg_read arm64.Register.PC native v)
    ∧ pc_read Arch.MIPS native v = some (reg_read mips.Register.PC native v)
    ∧ pc_read Arch.SPARC native v =
        some (reg_read sparc.Register.PC native v)
    ∧ pc_read Arch.M68K native v = some (reg_read m68k.Register.PC native v)
    ∧ pc_read Arch.PPC native v = some (reg_read ppc.Register.PC native v)
    ∧ pc_read Arch.RISCV native v =
        some (reg_read riscv.Register.PC native v)
    ∧ pc_write Arch.X86 v native =
        some (reg_write x86.Register.RIP v native)
    ∧ pc_write Arch.ARM v native = some (reg_write arm.Register.PC v native)
    ∧ pc_write Arch.ARM64 v native =
        some (reg_write arm64.Register.PC v native)
    ∧ pc_write Arch.MIPS v native =
        some (reg_write mips.Register.PC v native)
    ∧ pc_write Arch.SPARC v native =
        some (reg_write sparc.Register.PC v native)
    ∧ pc_write Arch.M68K v native =
        some (reg_write m68k.Register.PC v native)
    ∧ pc_write Arch.PPC v native = some (reg_write ppc.Register.PC v native)
    ∧ pc_write Arch.RISCV v native =
        some (reg_write riscv.Register.PC v native) :=
  ⟨rfl, rfl, rfl, rfl, rfl, rfl, rfl, rfl, rfl, rfl, rfl, rfl, rfl, rfl,
   rfl, rfl, rfl, rfl⟩

/-- Helper: the buffer-sizing phase can only produce a width, ARG, or ARCH. -/
theorem reg_read_long_size_cases (a : Arch) (r : Int) :
    (∃ n, reg_read_long_size a r = .ok n)
    ∨ reg_read_long_size a r = .error uc_error.ARG
    ∨ reg_read_long_size a r = .error uc_error.ARCH := by
  unfold reg_read_long_size
  split_ifs <;> simp

/-- Helper: when reg_read_long skips the native engine, the error it returns
is ARG or ARCH. -/
theorem reg_read_long_early_fail (a : Arch) (r : Int) (n : uc_error)
    (h : (reg_read_long a r n).native_called = false) :
    (reg_read_long a r n).result = .error uc_error.ARG
    ∨ (reg_read_long a r n).result = .error uc_error.ARCH := by
  unfold reg_read_long at h ⊢
  rcases reg_read_long_size_cases a r with ⟨len, hs⟩ | hs | hs <;>
    rw [hs] at h ⊢
  · by_cases hn : n = uc_error.OK <;> simp [hn] at h
  · simp
  · simp

/-- C3: reg_read_long returns buffers of exactly 16/32/64 bytes for the
XMM/YMM/ZMM banks and 10 bytes for GDTR, IDTR and ST0..ST7 on X86, exactly
16 bytes for the Q or V banks on ARM64, fails with ARG for any other
register id on those architectures and with ARCH on every other
architecture, and in each failing case returns before the native engine is
consulted. -/
theorem reg_read_long_widths (regid : Int) (native : uc_error) :
    (x86.Register.XMM0 ≤ regid → regid ≤ x86.Register.XMM31 →
      reg_read_long Arch.X86 regid uc_error.OK =
        { result := .ok 16, native_called := true })
    ∧ (x86.Register.YMM0 ≤ regid → regid ≤ x86.Register.YMM31 →
      reg_read_long Arch.X86 regid uc_error.OK =
        { result := .ok 32, native_called := true })
    ∧ (x86.Register.ZMM0 ≤ regid → regid ≤ x86.Register.ZMM31 →
      reg_read_long Arch.X86 regid uc_error.OK =
        { result := .ok 64, native_called := true })
    ∧ (regid = x86.Register.GDTR ∨ regid = x86.Register.IDTR ∨
        (x86.Register.ST0 ≤ regid ∧ regid ≤ x86.Register.ST7) →
      reg_read_long Arch.X86 regid uc_error.OK =
        { result := .ok 10, native_called := true })
    ∧ (¬(x86.Register.XMM0 ≤ regid ∧ regid ≤ x86.Register.XMM31) →
       ¬(x86.Register.YMM0 ≤ regid ∧ regid ≤ x86.Register.YMM31) →
       ¬(x86.Register.ZMM0 ≤ regid ∧ regid ≤ x86.Register.ZMM31) →
       ¬(regid = x86.Register.GDTR ∨ regid = x86.Register.IDTR ∨
         (x86.Register.ST0 ≤ regid ∧ regid ≤ x86.Register.ST7)) →
      reg_read_long Arch.X86 regid native =
        { result := .error uc_error.ARG, native_called := false })
    ∧ ((arm64.Register.Q0 ≤ regid ∧ regid ≤ arm64.Register.Q31) ∨
        (arm64.Register.V0 ≤ regid ∧ regid ≤ arm64.Register.V31) →
      reg_read_long Arch.ARM64 regid uc_error.OK =
        { result := .ok 16, native_called := true })
    ∧ (¬((arm64.Register.Q0 ≤ regid ∧ regid ≤ arm64.Register.Q31) ∨
         (arm64.Register.V0 ≤ regid ∧ regid ≤ arm64.Register.V31)) →
      reg_read_long Arch.ARM64 regid native =
        { result := .error uc_error.ARG, native_called := false })
    ∧ (∀ a : Arch, a ≠ Arch.X86 → a ≠ Arch.ARM64 →
      reg_read_long a regid native =
        { result := .error uc_error.ARCH, native_called := false }) := by
  refine ⟨?_, ?_, ?_, ?_, ?_, ?_, ?_, ?_⟩
  · intro h1 h2
    unfold reg_read_long reg_read_long_size
    rw [if_pos (show Arch.X86 = Arch.X86 from rfl), if_pos ⟨h1, h2⟩]
    rfl
  · intro h1 h2
    have hx : ¬(x86.Register.XMM0 ≤ regid ∧ regid ≤ x86.Register.XMM31) := by
      simp only [x86.Register.XMM0, x86.Register.XMM31,
        x86.Register.YMM0] at h1 ⊢
      omega
    unfold reg_read_long reg_read_long_size
    rw [if_pos (show Arch.X86 = Arch.X86 from rfl), if_neg hx,
      if_pos ⟨h1, h2⟩]
    rfl
  · intro h1 h2
    have hx : ¬(x86.Register.XMM0 ≤ regid ∧ regid ≤ x86.Register.XMM31) := by
      simp only [x86.Register.XMM0, x86.Register.XMM31,
        x86.Register.ZMM0] at h1 ⊢
      omega
    have hy : ¬(x86.Register.YMM0 ≤ regid ∧ regid ≤ x86.Register.YMM31) := by
      simp only [x86.Register.YMM0, x86.Register.YMM31,
        x86.Register.ZMM0] at h1 ⊢
      omega
    unfold reg_read_long reg_read_long_size
    rw [if_pos (show Arch.X86 = Arch.X86 from rfl), if_neg hx, if_neg hy,
      if_pos ⟨h1, h2⟩]
    rfl
  · intro h
    have hsmall : regid ≤ 193 := by
      rcases h with h | h | ⟨h1, h2⟩ <;>
        simp only [x86.Register.GDTR, x86.Register.IDTR, x86.Register.ST0,
          x86.Register.ST7] at * <;>
        omega
    have hx : ¬(x86.Register.XMM0 ≤ regid ∧ regid ≤ x86.Register.XMM31) := by
      simp only [x86.Register.XMM0, x86.Register.XMM31]
      omega
    have hy : ¬(x86.Register.YMM0 ≤ regid ∧ regid ≤ x86.Register.YMM31) := by
      simp only [x86.Register.YMM0, x86.Register.YMM31]
      omega
    have hz : ¬(x86.Register.ZMM0 ≤ regid ∧ regid ≤ x86.Register.ZMM31) := by
      simp only [x86.Register.ZMM0, x86.Register.ZMM31]
      omega
    unfold reg_read_long reg_read_long_size
    rw [if_pos (show Arch.X86 = Arch.X86 from rfl), if_neg hx, if_neg hy,
      if_neg hz, if_pos h]
    rfl
  · intro hx hy hz hw
    unfold reg_read_long reg_read_long_size
    rw [if_pos (show Arch.X86 = Arch.X86 from rfl), if_neg hx, if_neg hy,
      if_neg hz, if_neg hw]
  · intro h
    unfold reg_read_long reg_read_long_size
    rw [if_neg (by decide : ¬(Arch.ARM64 = Arch.X86)),
      if_pos (show Arch.ARM64 = Arch.ARM64 from rfl), if_pos h]
    rfl
  · intro h
    unfold reg_read_long reg_read_long_size
    rw [if_neg (by decide : ¬(Arch.ARM64 = Arch.X86)),
      if_pos (show Arch.ARM64 = Arch.ARM64 from rfl), if_neg h]
  · intro a ha1 ha2
    cases a <;> first
      | rfl
      | exact absurd rfl ha1
      | exact absurd rfl ha2

/-- Witness for C3: concrete reads at the first id of each documented range,
at an X86 id outside every range, and on a MIPS instance. -/
theorem reg_read_long_widths_witness :
    reg_read_long Arch.X86 x86.Register.XMM0 uc_error.OK =
      { result := .ok 16, native_called := true }
    ∧ reg_read_long Arch.X86 x86.Register.YMM0 uc_error.OK =
      { result := .ok 32, native_called := true }
    ∧ reg_read_long Arch.X86 x86.Register.ZMM0 uc_error.OK =
      { result := .ok 64, native_called := true }
    ∧ reg_read_long Arch.X86 x86.Register.GDTR uc_error.OK =
      { result := .ok 10, native_called := true }
    ∧ reg_read_long Arch.X86 x86.Register.ST0 uc_error.OK =
      { result := .ok 10, native_called := true }
    ∧ reg_read_long Arch.X86 0 uc_error.OK =
      { result := .error uc_error.ARG, native_called := false }
    ∧ reg_read_long Arch.ARM64 arm64.Register.Q0 uc_error.OK =
      { result := .ok 16, native_called := true }
    ∧ reg_read_long Arch.MIPS x86.Register.XMM0 uc_error.OK =
      { result := .error uc_error.ARCH, native_called := false } :=
  ⟨(reg_read_long_widths x86.Register.XMM0 uc_error.OK).1
      (by decide) (by decide),
   (reg_read_long_widths x86.Register.YMM0 uc_error.OK).2.1
      (by decide) (by decide),
   (reg_read_long_widths x86.Register.ZMM0 uc_error.OK).2.2.1
      (by decide) (by decide),
   (reg_read_long_widths x86.Register.GDTR uc_error.OK).2.2.2.1
      (by decide),
   (reg_read_long_widths x86.Register.ST0 uc_error.OK).2.2.2.1
      (by decide),
   (reg_read_long_widths 0 uc_error.OK).2.2.2.2.1
      (by decide) (by decide) (by decide) (by decide),
   (reg_read_long_widths arm64.Register.Q0 uc_error.OK).2.2.2.2.2.1
      (by decide),
   (reg_read_long_widths x86.Register.XMM0 uc_error.OK).2.2.2.2.2.2.2
      Arch.MIPS (by decide) (by decide)⟩

/-- C6: every operation that calls the native engine succeeds exactly when
the native call returns OK and otherwise returns the native error kind
verbatim, with no retry or recovery; the only failures that skip the native
engine are the up-front validations, which return ARG (memory-hook type
check) or ARG/ARCH (wide-register read). -/
theorem native_error_propagation (e : uc_error) (h : e ≠ uc_error.OK)
    (native_val value token closure address size ht : Nat) (rid : Int)
    (hooks : List (Nat × Nat)) (scopes : List MmioCallbackScope) :
    mem_write e = .error e
    ∧ mem_read e = .error e
    ∧ mem_map e = .error e
    ∧ (mem_unmap scopes address size e).result = .error e
    ∧ mem_protect e = .error e
    ∧ reg_read rid e native_val = .error e
    ∧ reg_write rid value e = .error e
    ∧ (add_code_hook hooks token closure e).2 = .error e
    ∧ (remove_hook hooks token e).result = .error e
    ∧ context_alloc e = .error e
    ∧ context_save e = .error e
    ∧ context_restore e = .error e
    ∧ emu_start e = .error e
    ∧ emu_stop e = .error e
    ∧ query e native_val = .error e
    ∧ mem_write uc_error.OK = .ok ()
    ∧ mem_read uc_error.OK = .ok ()
    ∧ mem_map uc_error.OK = .ok ()
    ∧ (mem_unmap scopes address size uc_error.OK).result = .ok ()
    ∧ mem_protect uc_error.OK = .ok ()
    ∧ reg_read rid uc_error.OK native_val = .ok native_val
    ∧ reg_write rid value uc_error.OK = .ok ()
    ∧ (add_code_hook hooks token closure uc_error.OK).2 = .ok token
    ∧ (remove_hook hooks token uc_error.OK).result = .ok ()
    ∧ context_alloc uc_error.OK = .ok true
    ∧ context_save uc_error.OK = .ok ()
    ∧ context_restore uc_error.OK = .ok ()
    ∧ emu_start uc_error.OK = .ok ()
    ∧ emu_stop uc_error.OK = .ok ()
    ∧ query uc_error.OK native_val = .ok native_val
    ∧ ((add_mem_hook ht e token).native_called = false →
        (add_mem_hook ht e token).result = .error uc_error.ARG)
    ∧ (∀ a : Arch, (reg_read_long a rid e).native_called = false →
        (reg_read_long a rid e).result = .error uc_error.ARG
        ∨ (reg_read_long a rid e).result = .error uc_error.ARCH) := by
  refine ⟨?_, ?_, ?_, ?_, ?_, ?_, ?_, ?_, ?_, ?_, ?_, ?_, ?_, ?_, ?_, rfl,
    rfl, rfl, rfl, rfl, rfl, rfl, rfl, rfl, rfl, rfl, rfl, rfl, rfl, rfl,
    ?_, ?_⟩
  · simp [mem_write, h]
  · simp [mem_read, h]
  · simp [mem_map, h]
  · simp [mem_unmap, h]
  · simp [mem_protect, h]
  · simp [reg_read, h]
  · simp [reg_write, h]
  · simp [add_code_hook, h]
  · simp [remove_hook, h]
  · simp [context_alloc, h]
  · simp [context_save, h]
  · simp [context_restore, h]
  · simp [emu_start, h]
  · simp [emu_stop, h]
  · simp [query, h]
  · intro hc
    by_cases hm : HookType.contains
        (HookType.MEM_ALL ||| HookType.MEM_READ_AFTER) ht = true
    · exfalso
      revert hc
      simp [add_mem_hook, hm, h]
    · simp only [Bool.not_eq_true] at hm
      simp [add_mem_hook, hm]
  · intro a hc
    exact reg_read_long_early_fail a rid e hc

/-- Witness for C6: the unmapped-write error from a failed emulation start
and a failed memory write is returned verbatim, while the OK code maps to
the success value. -/
theorem native_error_propagation_witness :
    emu_start uc_error.WRITE_UNMAPPED = .error uc_error.WRITE_UNMAPPED
    ∧ mem_write uc_error.WRITE_UNMAPPED = .error uc_error.WRITE_UNMAPPED
    ∧ mem_write uc_error.OK = .ok () :=
  ⟨(native_error_propagation uc_error.WRITE_UNMAPPED (by decide)
      0 0 0 0 0 0 0 0 [] []).2.2.2.2.2.2.2.2.2.2.2.2.1,
   (native_error_propagation uc_error.WRITE_UNMAPPED (by decide)
      0 0 0 0 0 0 0 0 [] []).1,
   (native_error_propagation uc_error.WRITE_UNMAPPED (by decide)
      0 0 0 0 0 0 0 0 [] []).2.2.2.2.2.2.2.2.2.2.2.2.2.2.2.1⟩

/-- C7: in every reachable state of the MMIO-callback list no scope has an
empty region set, and a successful mmio_map appends a scope covering exactly
the single region (address, size). -/
theorem mmio_scope_invariant (scopes : List MmioCallbackScope)
    (h : ReachableScopes scopes) :
    (∀ sc ∈ scopes, sc.regions ≠ [])
    ∧ ∀ a s rd wr, mmio_map_ok scopes a s rd wr =
        scopes ++ [{ regions := [(a, s)], read_callback := rd,
                     write_callback := wr }] := by
  constructor
  · induction h with
    | init => intro sc hsc; cases hsc
    | map_step st a s rd wr hr ih =>
      intro sc hsc
      rcases List.mem_append.mp hsc with hl | hr2
      · exact ih sc hl
      · rw [List.mem_singleton.mp hr2]
        simp
    | unmap_step st a s hr ih =>
      intro sc hsc
      have h2 := (List.mem_filter.mp hsc).2
      have h3 : sc.regions.length > 0 := by
        simpa [MmioCallbackScope.has_regions] using h2
      exact List.ne_nil_of_length_pos h3
  · intro a s rd wr
    rfl

/-- Witness for C7: the state reached by mapping one MMIO scope and then
unmapping a sub-range of it contains no scope with an empty region set. -/
theorem mmio_scope_invariant_witness :
    ({ regions := [(0x1000, 0x800), (0x2001, 0xFFF)],
       read_callback := some 1,
       write_callback := none } : MmioCallbackScope).regions ≠ [] :=
  (mmio_scope_invariant
    (mmio_unmap (mmio_map_ok [] 0x1000 0x2000 (some 1) none) 0x1800 0x800)
    (ReachableScopes.unmap_step _ 0x1800 0x800
      (ReachableScopes.map_step [] 0x1000 0x2000 (some 1) none
        ReachableScopes.init))).1 _ (by decide)

/-- C8: mem_unmap runs the MMIO-scope subtraction unconditionally — also
when the native unmap fails, in which case the native error is returned —
and every scope left in the list still has regions (the emptied ones were
discarded). -/
theorem mem_unmap_bookkeeping (scopes : List MmioCallbackScope)
    (address size : Nat) (e : uc_error) (h : e ≠ uc_error.OK) :
    (mem_unmap scopes address size e).scopes = mmio_unmap scopes address size
    ∧ (mem_unmap scopes address size e).result = .error e
    ∧ ∀ sc ∈ (mem_unmap scopes address size e).scopes,
        sc.has_regions = true := by
  refine ⟨rfl, by simp [mem_unmap, h], ?_⟩
  intro sc hsc
  exact (List.mem_filter.mp hsc).2

/-- Witness for C8: failing to unmap natively still subtracts the range from
the registered scope. -/
theorem mem_unmap_bookkeeping_witness :
    (mem_unmap [⟨[(0x1000, 0x2000)], some 1, none⟩] 0x1000 0x2000
        uc_error.ARG).scopes = []
    ∧ (mem_unmap [⟨[(0x1000, 0x2000)], some 1, none⟩] 0x1000 0x2000
        uc_error.ARG).result = .error uc_error.ARG := by
  have h := mem_unmap_bookkeeping [⟨[(0x1000, 0x2000)], some 1, none⟩]
    0x1000 0x2000 uc_error.ARG (by decide)
  exact ⟨h.1.trans (by decide), h.2.1⟩

/-- C9: context_init composes allocate then save: an allocation failure is
returned with no save attempted; a save failure frees the fresh allocation
before the save error is returned; on success the populated context is
returned after exactly allocate and save. -/
theorem context_init_spec (alloc_res save_res : uc_error) :
    (alloc_res ≠ uc_error.OK →
      (context_init alloc_res save_res).result = .error alloc_res
      ∧ (context_init alloc_res save_res).trace = [Event.uc_context_alloc])
    ∧ (alloc_res = uc_error.OK → save_res ≠ uc_error.OK →
      (context_init alloc_res save_res).result = .error save_res
      ∧ (context_init alloc_res save_res).trace =
          [Event.uc_context_alloc, Event.uc_context_save,
           Event.uc_context_free])
    ∧ (alloc_res = uc_error.OK → save_res = uc_error.OK →
      (context_init alloc_res save_res).result = .ok true
      ∧ (context_init alloc_res save_res).trace =
          [Event.uc_context_alloc, Event.uc_context_save]) := by
  refine ⟨?_, ?_, ?_⟩
  · intro h
    constructor <;> simp [context_init, h]
  · intro h1 h2
    constructor <;> simp [context_init, h1, h2]
  · intro h1 h2
    constructor <;> simp [context_init, h1, h2]

/-- Witness for C9: a failed allocation is returned without a save attempt,
and a failed save frees the allocation before returning the save error. -/
theorem context_init_spec_witness :
    ((context_init uc_error.NOMEM uc_error.OK).result =
        .error uc_error.NOMEM
      ∧ (context_init uc_error.NOMEM uc_error.OK).trace =
        [Event.uc_context_alloc])
    ∧ (context_init uc_error.OK uc_error.NOMEM).trace =
        [Event.uc_context_alloc, Event.uc_context_save,
         Event.uc_context_free] :=
  ⟨(context_init_spec uc_error.NOMEM uc_error.OK).1 (by decide),
   ((context_init_spec uc_error.OK uc_error.NOMEM).2.1 rfl (by decide)).2⟩

/-- C10: the MIPS register catalog: PC is 1, the general-purpose registers
GPR0..GPR31 are the consecutive values 2..33, the DSP/ACC/COP/FPU/vector/
system registers are the consecutive values 34..139, the ENDING sentinel is
140, and every alias constant equals its canonical register rather than a
distinct value. -/
theorem mips_register_catalog :
    mips.Register.PC = 1
    ∧ [mips.Register.GPR0, mips.Register.GPR1, mips.Register.GPR2,
      mips.Register.GPR3, mips.Register.GPR4, mips.Register.GPR5,
      mips.Register.GPR6, mips.Register.GPR7, mips.Register.GPR8,
      mips.Register.GPR9, mips.Register.GPR10, mips.Register.GPR11,
      mips.Register.GPR12, mips.Register.GPR13, mips.Register.GPR14,
      mips.Register.GPR15, mips.Register.GPR16, mips.Register.GPR17,
      mips.Register.GPR18, mips.Register.GPR19, mips.Register.GPR20,
      mips.Register.GPR21, mips.Register.GPR22, mips.Register.GPR23,
      mips.Register.GPR24, mips.Register.GPR25, mips.Register.GPR26,
      mips.Register.GPR27, mips.Register.GPR28, mips.Register.GPR29,
      mips.Register.GPR30, mips.Register.GPR31] = (List.range' 2 32).map
      (fun n => (n : Int))
    ∧ [mips.Register.DSPCCOND, mips.Register.DSPCARRY, mips.Register.DSPEFI,
      mips.Register.DSPOUTFLAG, mips.Register.DSPOUTFLAG16_19,
      mips.Register.DSPOUTFLAG20, mips.Register.DSPOUTFLAG21,
      mips.Register.DSPOUTFLAG22, mips.Register.DSPOUTFLAG23,
      mips.Register.DSPPOS, mips.Register.DSPSCOUNT, mips.Register.AC0,
      mips.Register.AC1, mips.Register.AC2, mips.Register.AC3,
      mips.Register.CC0, mips.Register.CC1, mips.Register.CC2,
      mips.Register.CC3, mips.Register.CC4, mips.Register.CC5,
      mips.Register.CC6, mips.Register.CC7, mips.Register.F0,
      mips.Register.F1, mips.Register.F2, mips.Register.F3,
      mips.Register.F4, mips.Register.F5, mips.Register.F6,
      mips.Register.F7, mips.Register.F8, mips.Register.F9,
      mips.Register.F10, mips.Register.F11, mips.Register.F12,
      mips.Register.F13, mips.Register.F14, mips.Register.F15,
      mips.Register.F16, mips.Register.F17, mips.Register.F18,
      mips.Register.F19, mips.Register.F20, mips.Register.F21,
      mips.Register.F22, mips.Register.F23, mips.Register.F24,
      mips.Register.F25, mips.Register.F26, mips.Register.F27,
      mips.Register.F28, mips.Register.F29, mips.Register.F30,
      mips.Register.F31, mips.Register.FCC0, mips.Register.FCC1,
      mips.Register.FCC2, mips.Register.FCC3, mips.Register.FCC4,
      mips.Register.FCC5, mips.Register.FCC6, mips.Register.FCC7,
      mips.Register.W0, mips.Register.W1, mips.Register.W2,
      mips.Register.W3, mips.Register.W4, mips.Register.W5,
      mips.Register.W6, mips.Register.W7, mips.Register.W8,
      mips.Register.W9, mips.Register.W10, mips.Register.W11,
      mips.Register.W12, mips.Register.W13, mips.Register.W14,
      mips.Register.W15, mips.Register.W16, mips.Register.W17,
      mips.Register.W18, mips.Register.W19, mips.Register.W20,
      mips.Register.W21, mips.Register.W22, mips.Register.W23,
      mips.Register.W24, mips.Register.W25, mips.Register.W26,
      mips.Register.W27, mips.Register.W28, mips.Register.W29,
      mips.Register.W30, mips.Register.W31, mips.Register.HI,
      mips.Register.LO, mips.Register.P0, mips.Register.P1,
      mips.Register.P2, mips.Register.MPL0, mips.Register.MPL1,
      mips.Register.MPL2, mips.Register.CP0_CONFIG3,
      mips.Register.CP0_USERLOCAL, mips.Register.CP0_STATUS] = (List.range'
      34 106).map (fun n => (n : Int))
    ∧ mips.Register.ENDING = 140
    ∧ mips.Register.ZERO = mips.Register.GPR0
    ∧ mips.Register.AT = mips.Register.GPR1
    ∧ mips.Register.V0 = mips.Register.GPR2
    ∧ mips.Register.V1 = mips.Register.GPR3
    ∧ mips.Register.A0 = mips.Register.GPR4
    ∧ mips.Register.A1 = mips.Register.GPR5
    ∧ mips.Register.A2 = mips.Register.GPR6
    ∧ mips.Register.A3 = mips.Register.GPR7
    ∧ mips.Register.T0 = mips.Register.GPR8
    ∧ mips.Register.T1 = mips.Register.GPR9
    ∧ mips.Register.T2 = mips.Register.GPR10
    ∧ mips.Register.T3 = mips.Register.GPR11
    ∧ mips.Register.T4 = mips.Register.GPR12
    ∧ mips.Register.T5 = mips.Register.GPR13
    ∧ mips.Register.T6 = mips.Register.GPR14
    ∧ mips.Register.T7 = mips.Register.GPR15
    ∧ mips.Register.S0 = mips.Register.GPR16
    ∧ mips.Register.S1 = mips.Register.GPR17
    ∧ mips.Register.S2 = mips.Register.GPR18
    ∧ mips.Register.S3 = mips.Register.GPR19
    ∧ mips.Register.S4 = mips.Register.GPR20
    ∧ mips.Register.S5 = mips.Register.GPR21
    ∧ mips.Register.S6 = mips.Register.GPR22
    ∧ mips.Register.S7 = mips.Register.GPR23
    ∧ mips.Register.T8 = mips.Register.GPR24
    ∧ mips.Register.T9 = mips.Register.GPR25
    ∧ mips.Register.K0 = mips.Register.GPR26
    ∧ mips.Register.K1 = mips.Register.GPR27
    ∧ mips.Register.GP = mips.Register.GPR28
    ∧ mips.Register.SP = mips.Register.GPR29
    ∧ mips.Register.FP = mips.Register.GPR30
    ∧ mips.Register.S8 = mips.Register.GPR30
    ∧ mips.Register.RA = mips.Register.GPR31
    ∧ mips.Register.HI0 = mips.Register.AC0
    ∧ mips.Register.HI1 = mips.Register.AC1
    ∧ mips.Register.HI2 = mips.Register.AC2
    ∧ mips.Register.HI3 = mips.Register.AC3
    ∧ mips.Register.LO0 = mips.Register.AC0
    ∧ mips.Register.LO1 = mips.Register.AC1
    ∧ mips.Register.LO2 = mips.Register.AC2
    ∧ mips.Register.LO3 = mips.Register.AC3 := by
  decide

end Unicornafl
